import Mathlib

/-!
Verification of the Taylor UUCP core (session layer prot.c and the
sliding-window link layer proti.c) against its natural-language
specification.  The definitions below are shallow embeddings of the C
functions; machine integers are modelled as Nat or Int with explicit
modular reduction where the C code masks, and C bit operations on
non-negative byte-sized values are written in their arithmetic form
(x & 0xff as x % 256, x >> 3 as x / 8, (a << 8) | b as a * 256 + b for
b < 256, which agree with the C expressions on the values that occur).
-/

/-! ## Sequence-space arithmetic (proti.c lines 150-158) -/

/-- Largest possible sequence number plus 1 (proti.c IMAXSEQ). -/
def IMAXSEQ : Nat := 32

/-- Next sequence number: (i + 1) & (IMAXSEQ - 1) in the C source; the
mask by 31 on a non-negative value equals reduction mod 32. -/
def INEXTSEQ (i : Nat) : Nat := (i + 1) % 32

/-- Sequence-space difference, the number of packets from i2 to i1:
((i1) + IMAXSEQ - (i2)) & (IMAXSEQ - 1) in the C source.  Arguments are
Int because fiprocess_data applies it to iseq = -1 for packets that
carry no sequence number; for the argument ranges that occur the C
mask by 31 equals the mathematical remainder mod 32. -/
def CSEQDIFF (i1 i2 : Int) : Int := (i1 + 32 - i2) % 32

/-! ## Error budget (proti.c ficheck_errors, lines 848-863) -/

/-- Embedding of ficheck_errors.  Returns true when the link may
continue and false on fatal overflow of the error budget.  The C
counters are longs; division is C division, which truncates toward
zero (Int.tdiv). -/
def ficheck_errors (cIerrors cIerror_decay cIbad_hdr cIbad_order
    cIbad_cksum cIremote_rejects cIreceived_packets : Int) : Bool :=
  if cIerrors < 0 then
    true
  else if (cIbad_order + cIbad_hdr + cIbad_cksum + cIremote_rejects)
      - cIreceived_packets.tdiv cIerror_decay > cIerrors then
    false
  else
    true

/-! ## Window wait in fisenddata (proti.c lines 651-663)

The C loop
  while (CSEQDIFF (iIsendseq, iIremote_ack) > iIremote_winsize)
    fiwait_for_packet (...);
blocks until acknowledgements restore the window bound.  Each call to
fiwait_for_packet may advance iIremote_ack; we model the successive
values it produces as a list, and a communication failure of
fiwait_for_packet (which makes fisenddata return FALSE) as running out
of that list.  The result is the value of iIremote_ack at the moment
the DATA packet is handed to fsend_data. -/

/-- One execution of the window-wait loop of fisenddata, threading the
successive values of iIremote_ack produced by fiwait_for_packet. -/
def fisenddata_wait (winsize sendseq : Int) (ack : Int) (acks : List Int) :
    Option Int :=
  if CSEQDIFF sendseq ack > winsize then
    match acks with
    | [] => none
    | a :: rest => fisenddata_wait winsize sendseq a rest
  else
    some ack

/-- The window check of fisenddata, including the guard
if (iIremote_winsize > 0) around the wait loop. -/
def fisenddata_window (winsize sendseq : Int) (ack : Int)
    (acks : List Int) : Option Int :=
  if winsize > 0 then fisenddata_wait winsize sendseq ack acks
  else some ack

/-! ## Claims C7 and C10: the error budget -/

/-- Claim C7: with a non-negative configured error limit,
ficheck_errors reports fatal link failure (returns false) exactly when
(bad_hdr + bad_cksum + bad_order + remote_rejects) -
(received_packets / error_decay) exceeds the limit, with truncating
integer division; otherwise the link continues. -/
theorem C7_error_budget (errors decay hdr order cksum rejects received : Int)
    (h : 0 ≤ errors) :
    ficheck_errors errors decay hdr order cksum rejects received = false ↔
      (hdr + cksum + order + rejects) - received.tdiv decay > errors := by
  unfold ficheck_errors
  rw [if_neg (by omega)]
  constructor
  · intro hf
    by_contra hc
    rw [if_neg (by omega)] at hf
    exact Bool.true_eq_false ▸ hf
  · intro hc
    rw [if_pos (by omega)]

/-- Witness for C7 at a concrete state: limit 2, decay 10, counters
summing to 7 with 30 received packets, so 7 - 3 = 4 > 2 is fatal. -/
theorem C7_error_budget_witness :
    ficheck_errors 2 10 3 1 2 1 30 = false :=
  (C7_error_budget 2 10 3 1 2 1 30 (by decide)).mpr (by decide)

/-- Claim C10: a negative configured error limit disables the budget
entirely; ficheck_errors succeeds whatever the counters hold. -/
theorem C10_negative_errors_disables (errors decay hdr order cksum rejects
    received : Int) (h : errors < 0) :
    ficheck_errors errors decay hdr order cksum rejects received = true := by
  unfold ficheck_errors
  rw [if_pos h]

/-- Witness for C10 with limit -1 and an arbitrarily bad counter
state. -/
theorem C10_negative_errors_disables_witness :
    ficheck_errors (-1) 10 1000 1000 1000 1000 0 = true :=
  C10_negative_errors_disables (-1) 10 1000 1000 1000 1000 0 (by decide)

/-! ## Claim C1: the send window bound -/

/-- Claim C1: whenever fisenddata runs with a positive remote window
size and reaches the point where the DATA packet is handed to
fsend_data (the wait loop has terminated, possibly after blocking in
fiwait_for_packet), the sequence-space difference between the sequence
number of the packet being sent and the latest remote acknowledgement
is at most the remote window size. -/
theorem C1_window_bound (winsize sendseq ack : Int) (acks : List Int)
    (a : Int) (hw : winsize > 0)
    (h : fisenddata_window winsize sendseq ack acks = some a) :
    CSEQDIFF sendseq a ≤ winsize := by
  rw [fisenddata_window, if_pos hw] at h
  induction acks generalizing ack with
  | nil =>
    rw [fisenddata_wait] at h
    by_cases hc : CSEQDIFF sendseq ack > winsize
    · rw [if_pos hc] at h
      exact absurd h (by simp)
    · rw [if_neg hc] at h
      cases h
      omega
  | cons b rest ih =>
    rw [fisenddata_wait] at h
    by_cases hc : CSEQDIFF sendseq ack > winsize
    · rw [if_pos hc] at h
      exact ih b h
    · rw [if_neg hc] at h
      cases h
      omega

/-- Witness for C1: window 16, packet sequence 5, remote ack 22; the
difference (5 + 32 - 22) mod 32 = 15 is within the window, so the loop
exits at once and the bound holds at the send. -/
theorem C1_window_bound_witness :
    CSEQDIFF 5 22 ≤ 16 :=
  C1_window_bound 16 5 22 [] 22 (by decide) (by decide)

/-! ## Piggybacked acknowledgement update (proti.c lines 1061-1067)

After a packet is validated, fiprocess_data extracts the piggybacked
acknowledgement iack from the remote field of the header and runs

  if (iIrequest_winsize > 0
      && iseq != iIsendseq
      && CSEQDIFF (iseq, iIremote_ack) <= iIrequest_winsize
      && CSEQDIFF (iIsendseq, iseq) <= iIrequest_winsize)
    iIremote_ack = iack;

where iseq is the local sequence number of the packet itself, which is
-1 for SYNC, ACK and NAK packets. -/

/-- Embedding of the remote-ack update of fiprocess_data: given the
request window size, the local sequence field iseq of the packet (-1
for packets without one), the current send sequence and remote ack,
and the piggybacked acknowledgement iack, return the new value of
iIremote_ack. -/
def fiprocess_ack_update (request_winsize iseq sendseq remote_ack iack :
    Int) : Int :=
  if request_winsize > 0 ∧ iseq ≠ sendseq ∧
      CSEQDIFF iseq remote_ack ≤ request_winsize ∧
      CSEQDIFF sendseq iseq ≤ request_winsize then
    iack
  else
    remote_ack

/-- Claim C2 fails on the code: the guard of the remote-ack update
tests the local-sequence field iseq of the packet, not the
acknowledgement field iack.  At the failing input (request window 16,
a standalone ACK packet so iseq = -1, send sequence 2, remote ack 0,
piggybacked acknowledgement 1) the claim requires the update, because
1 advances remote ack 0 within the legal send window, yet the code
leaves remote ack at 0: the guard computes CSEQDIFF (-1) 0 = 31 > 16.
The second conjunct substitutes the acknowledgement value into the
iseq position and shows the very same guard would then accept, so the
decision depends only on the local sequence field. -/
theorem C2_ack_guard_tests_iseq :
    fiprocess_ack_update 16 (-1) 2 0 1 = 0 ∧
    fiprocess_ack_update 16 1 2 0 1 = 1 := by
  decide

/-! ## Header sequence fields (proti.c lines 87-90, 153-154, 364)

IHDRWIN_SET is ((iseq) << 3) | (ichan) and IHDRWIN_GETSEQ is
((ival) >> 3) & 0x1f in the C source; for a channel below 8 the or is
addition, the shifts are multiplication and division by 8, and the
mask is reduction mod 32. -/

/-- Pack a sequence number and a channel into a header byte. -/
def IHDRWIN_SET (iseq ichan : Nat) : Nat := iseq * 8 + ichan

/-- Extract the sequence number from a header byte. -/
def IHDRWIN_GETSEQ (ival : Nat) : Nat := ival / 8 % 32

/-- Extract the channel from a header byte. -/
def IHDRWIN_GETCHAN (ival : Nat) : Nat := ival % 8

/-- Local sequence number carried by the nth flow-controlled packet
(DATA, SPOS or CLOSE) sent after fistart: fistart sets iIsendseq to 1
(line 364) and every such send advances iIsendseq by INEXTSEQ (lines
634 and 674), with fishutdown using the current iIsendseq for CLOSE
(line 482). -/
def dataSeqAt : Nat → Nat
  | 0 => 1
  | n + 1 => INEXTSEQ (dataSeqAt n)

/-- Local header byte of a NAK packet built by finak (line 714):
IHDRWIN_SET (iseq, 0) with iseq the sequence being requested. -/
def nakHeaderLocal (iseq : Nat) : Nat := IHDRWIN_SET iseq 0

/-- Local header byte of a standalone ACK packet (line 1166):
IHDRWIN_SET (0, 0). -/
def ackHeaderLocal : Nat := IHDRWIN_SET 0 0

/-- Local header byte of a SYNC packet built by fistart (line 381):
IHDRWIN_SET (0, 0). -/
def syncHeaderLocal : Nat := IHDRWIN_SET 0 0

/-- Counterexample to claim C3: sequence number 0 is not reserved.
The 32nd flow-controlled packet sent after fistart carries local
sequence number 0 (the sequence counter starts at 1 and INEXTSEQ wraps
31 to 0), so DATA packets do not stay within 1..31; and a NAK built by
finak for sequence 5 carries 5, not 0, in its local sequence field. -/
theorem C3_counterexample :
    dataSeqAt 31 = 0 ∧ IHDRWIN_GETSEQ (nakHeaderLocal 5) = 5 := by
  decide

/-- Claim C3 amended: the flow-controlled sequence numbers cycle
through all residues mod 32, the (n+1)th flow-controlled packet after
fistart carrying (1 + n) mod 32 in its local field, so sequence 0 is
assigned to every 32nd DATA, SPOS or CLOSE packet; SYNC and standalone
ACK packets carry 0 in the local sequence field, while a NAK carries
the requested sequence number reduced mod 32 there. -/
theorem C3_sequence_cycle :
    (∀ n, dataSeqAt n = (1 + n) % 32) ∧
    IHDRWIN_GETSEQ syncHeaderLocal = 0 ∧
    IHDRWIN_GETSEQ ackHeaderLocal = 0 ∧
    (∀ iseq, IHDRWIN_GETSEQ (nakHeaderLocal iseq) = iseq % 32) := by
  refine ⟨?_, rfl, rfl, ?_⟩
  · intro n
    induction n with
    | zero => rfl
    | succ n ih => rw [dataSeqAt, ih, INEXTSEQ]; omega
  · intro iseq
    unfold nakHeaderLocal IHDRWIN_SET IHDRWIN_GETSEQ
    omega

/-! ## Standalone ACK emission and naked-flag clearing
(proti.c lines 1157-1178)

After processing a packet, fiprocess_data runs

  if (iIremote_winsize > 0
      && CSEQDIFF (iIrecseq, iIlocal_ack) >= iIremote_winsize / 2)
    {
      for (i = iIlocal_ack; i <= iIrecseq; i++)
        afInaked[i] = FALSE;
      ... build and send the standalone ACK ...
      iIlocal_ack = iIrecseq;
    }
-/

/-- The trigger condition of the standalone ACK block; C division of
the window size truncates toward zero. -/
def fiprocess_ack_condition (remote_winsize recseq local_ack : Int) :
    Prop :=
  remote_winsize > 0 ∧
    CSEQDIFF recseq local_ack ≥ remote_winsize.tdiv 2

instance (w r l : Int) : Decidable (fiprocess_ack_condition w r l) :=
  inferInstanceAs (Decidable (_ ∧ _))

/-- The naked-flag clearing loop of the standalone ACK block: the C
loop runs i from iIlocal_ack while i <= iIrecseq, so it clears exactly
the plain integer interval between the two, and nothing at all when
local_ack exceeds recseq. -/
def clear_naked (local_ack recseq : Nat) (naked : Nat → Bool) :
    Nat → Bool :=
  fun i => if local_ack ≤ i ∧ i ≤ recseq then false else naked i

/-- Claim C6 fails on the code: with remote window 4, last received
sequence 2 and last acknowledged sequence 30, the standalone ACK is
emitted (CSEQDIFF 2 30 = 4 is at least 4 / 2 = 2), the acknowledged
range wraps past 31, and the claim requires the naked flag of sequence
31 to be cleared; but the clearing loop compares sequence numbers as
plain integers (30 <= i <= 2 never holds), so it clears nothing and
the flag of 31 stays set. -/
theorem C6_wrapped_range_not_cleared :
    fiprocess_ack_condition 4 2 30 ∧
    clear_naked 30 2 (fun _ => true) 31 = true := by
  exact ⟨by decide, by decide⟩

/-! ## NAK emission sites (proti.c finak and its callers)

finak (lines 706-726) builds and transmits a NAK for a given sequence
number and records it by setting afInaked[iseq].  Its callers are

  - the out-of-order save path of fiprocess_data (lines 1100-1112),
    which walks the gap from INEXTSEQ (iIrecseq) up to the saved
    sequence and calls finak only where afInaked is still false;
  - the bad-checksum path of fiprocess_data (lines 1039-1043), which
    calls finak unconditionally for the corrupted sequence;
  - the read-timeout path of fiwait_for_packet (lines 836-840), which
    calls finak unconditionally for INEXTSEQ (iIrecseq).

Each model event returns the list of sequence numbers NAKed by the
event together with the updated afInaked array, modelled as a
function. -/

/-- Embedding of finak as seen by the flag state: emit one NAK for
iseq and set afInaked[iseq]. -/
def finak_emit (iseq : Nat) (naked : Nat → Bool) :
    List Nat × (Nat → Bool) :=
  ([iseq], fun j => if j = iseq then true else naked j)

/-- The gap-walking loop of the out-of-order save path, with explicit
fuel; the C loop visits at most 31 sequence numbers, so fuel 32 never
runs out before the loop condition i != iseq stops it. -/
def gap_scan_aux : Nat → Nat → Nat → (Nat → Bool) →
    List Nat × (Nat → Bool)
  | 0, _, _, naked => ([], naked)
  | fuel + 1, i, iseq, naked =>
    if i = iseq then
      ([], naked)
    else if naked i then
      gap_scan_aux fuel (INEXTSEQ i) iseq naked
    else
      let e := finak_emit i naked
      let r := gap_scan_aux fuel (INEXTSEQ i) iseq e.2
      (e.1 ++ r.1, r.2)

/-- NAK emissions of one out-of-order save event: the unexpected
packet iseq has just been stored and the loop NAKs every sequence
strictly between iIrecseq and iseq whose afInaked flag is clear. -/
def gap_scan (recseq iseq : Nat) (naked : Nat → Bool) :
    List Nat × (Nat → Bool) :=
  gap_scan_aux 32 (INEXTSEQ recseq) iseq naked

/-- NAK emission of one read-timeout event of fiwait_for_packet with
nothing left to resend: finak (INEXTSEQ (iIrecseq)), unconditionally. -/
def timeout_nak (recseq : Nat) (naked : Nat → Bool) :
    List Nat × (Nat → Bool) :=
  finak_emit (INEXTSEQ recseq) naked

/-- NAK emission of one bad-checksum event of fiprocess_data for a
packet carrying sequence iseq: finak (iseq), unconditionally. -/
def bad_cksum_nak (iseq : Nat) (naked : Nat → Bool) :
    List Nat × (Nat → Bool) :=
  finak_emit iseq naked

/-- Run a sequence of out-of-order save events, each given by the
value of iIrecseq at that moment and the saved sequence number,
accumulating all NAK emissions. -/
def run_gap_scans : List (Nat × Nat) → (Nat → Bool) →
    List Nat × (Nat → Bool)
  | [], naked => ([], naked)
  | (r, q) :: evs, naked =>
    let x := gap_scan r q naked
    let y := run_gap_scans evs x.2
    (x.1 ++ y.1, y.2)

/-- Within one gap walk, the number of NAKs emitted for a sequence s,
plus one if its flag was already set, never exceeds the final flag
value: once NAKed the flag is set and the loop skips it thereafter. -/
theorem gap_scan_aux_count_bound (fuel : Nat) :
    ∀ (i iseq : Nat) (naked : Nat → Bool) (s : Nat),
      (gap_scan_aux fuel i iseq naked).1.count s + (naked s).toNat ≤
        ((gap_scan_aux fuel i iseq naked).2 s).toNat := by
  induction fuel with
  | zero =>
    intro i iseq naked s
    simp [gap_scan_aux]
  | succ fuel ih =>
    intro i iseq naked s
    rw [gap_scan_aux]
    by_cases h1 : i = iseq
    · simp [h1]
    · rw [if_neg h1]
      by_cases h2 : naked i
      · rw [if_pos h2]
        exact ih (INEXTSEQ i) iseq naked s
      · rw [if_neg h2]
        simp only [finak_emit, List.singleton_append]
        have hrec := ih (INEXTSEQ i) iseq
          (fun j => if j = i then true else naked j) s
        by_cases hs : s = i
        · subst hs
          have h2f : naked s = false := by simpa using h2
          simp only [eq_self_iff_true, if_true] at hrec
          rw [List.count_cons_self, h2f]
          rcases h3 : (gap_scan_aux fuel (INEXTSEQ s) iseq
              (fun j => if j = s then true else naked j)).2 s with _ | _
          · rw [h3] at hrec
            simp at hrec
          · simp only [h3, Bool.toNat_true, Bool.toNat_false] at hrec ⊢
            omega
        · rw [if_neg hs] at hrec
          rw [List.count_cons_of_ne hs]
          exact hrec

/-- The single-walk bound extends to any sequence of out-of-order
save events: the flags only ever grow during gap walks. -/
theorem run_gap_scans_count_bound (evs : List (Nat × Nat)) :
    ∀ (naked : Nat → Bool) (s : Nat),
      (run_gap_scans evs naked).1.count s + (naked s).toNat ≤
        ((run_gap_scans evs naked).2 s).toNat := by
  induction evs with
  | nil =>
    intro naked s
    simp [run_gap_scans]
  | cons e evs ih =>
    intro naked s
    obtain ⟨r, q⟩ := e
    rw [run_gap_scans]
    simp only [List.count_append]
    have h1 := gap_scan_aux_count_bound 32 (INEXTSEQ r) q naked s
    have h2 := ih ((gap_scan r q naked).2) s
    unfold gap_scan at h2 ⊢
    omega

/-- Claim C5 amended: the duplicate suppression holds for the
out-of-order save path taken alone.  Across any sequence of
out-of-order save events, with no intervening clearing of the
afInaked flags, at most one NAK is emitted for any given sequence
number: the first emission sets the flag and every later gap walk
skips a flagged sequence. -/
theorem C5_gap_scan_suppression (evs : List (Nat × Nat))
    (naked : Nat → Bool) (s : Nat) :
    (run_gap_scans evs naked).1.count s ≤ 1 := by
  have h := run_gap_scans_count_bound evs naked s
  have h2 : ((run_gap_scans evs naked).2 s).toNat ≤ 1 := by
    rcases (run_gap_scans evs naked).2 s with _ | _ <;> simp
  omega

/-- Counterexample to claim C5 as stated: starting with iIrecseq = 0
and all afInaked flags clear, an out-of-order arrival of sequence 2
makes the save path NAK the missing sequence 1 (setting its flag), and
a subsequent read timeout in fiwait_for_packet NAKs
INEXTSEQ (iIrecseq) = 1 again, unconditionally, although no packet
with sequence 1 was received in between; two NAKs for the same missing
sequence cross the wire. -/
theorem C5_counterexample :
    ((gap_scan 0 2 (fun _ => false)).1 ++
        (timeout_nak 0 (gap_scan 0 2 (fun _ => false)).2).1).count 1
      = 2 := by
  decide

/-! ## Session-layer reply strings (prot.c fsend_file and
freceive_file)

The session layer exchanges NUL-terminated ASCII command strings.  The
sprintf conversion %o prints a number in octal with no leading zero of
its own; the leading zero of the 0mode notation is a literal character
in the format string. -/

/-- Octal digit character for a value below 8. -/
def octalDigit (d : Nat) : Char := Char.ofNat (48 + d)

/-- Octal digits of a number, most significant first, as printed by
the sprintf conversion %o. -/
def octalDigits (n : Nat) : List Char :=
  if _h : n < 8 then [octalDigit n]
  else octalDigits (n / 8) ++ [octalDigit (n % 8)]
termination_by n
decreasing_by
  exact Nat.div_lt_self (by omega) (by omega)

/-- The octal rendering of a number is never empty. -/
theorem octalDigits_length_pos (n : Nat) : 1 ≤ (octalDigits n).length := by
  unfold octalDigits
  split <;> simp

/-- Reply transmitted by freceive_file running as slave when it
accepts a send request from the master (prot.c line 358): the literal
string handed to pfsendcmd. -/
def freceive_file_slave_reply : String := "SY"

/-- Reply transmitted by fsend_file running as slave when it confirms
a receive request (prot.c line 201): sprintf of RY 0%o with the file
mode. -/
def fsend_file_slave_reply (imode : Nat) : String :=
  String.mk (['R', 'Y', ' ', '0'] ++ octalDigits imode)

/-- Specification-side definition, for comparison with the source:
the reply format SY 0mode that claim C4 asserts, the string SY
followed by a space and the file mode in octal with a leading zero. -/
def spec_send_accept_reply (imode : Nat) : String :=
  String.mk (['S', 'Y', ' ', '0'] ++ octalDigits imode)

/-- Counterexample to claim C4: for file mode 0644 (decimal 420) the
reply freceive_file actually transmits on accepting a send request is
the bare string SY, not the SY 0mode form the claim asserts. -/
theorem C4_counterexample :
    freceive_file_slave_reply ≠ spec_send_accept_reply 420 := by
  decide

/-- Claim C4 amended: the reply freceive_file transmits as slave on
accepting a send request is exactly the two-character string SY,
carrying no mode, and for no file mode does it match the SY 0mode
format; the mode-bearing acceptance reply of the session layer is the
RY 0mode string sent by fsend_file as slave when confirming a receive
request. -/
theorem C4_slave_send_reply :
    freceive_file_slave_reply = "SY" ∧
    (∀ imode, freceive_file_slave_reply ≠ spec_send_accept_reply imode) ∧
    (∀ imode, fsend_file_slave_reply imode =
      String.mk (['R', 'Y', ' ', '0'] ++ octalDigits imode)) := by
  refine ⟨rfl, ?_, fun _ => rfl⟩
  intro imode h
  have hd : (['S', 'Y'] : List Char)
      = ['S', 'Y', ' ', '0'] ++ octalDigits imode :=
    congrArg String.data h
  have hl := congrArg List.length hd
  have hp := octalDigits_length_pos imode
  simp only [List.length_append, List.length_cons, List.length_nil] at hl
  omega

/-! ## Master handling of send-request replies (prot.c lines 142-192)

After sending the S command, fsend_file as master reads a reply.  A
reply not of the form S then Y or N is a bad response: the file is
closed and FALSE is returned.  On SN the third character selects the
handling: on 4 or 6 the error is logged, the file closed, and TRUE
returned with the work record left intact; on 2 or anything else the
error is logged, fsysdep_did_work discards the work record, the file
is closed, and TRUE is returned.  On SY the transfer proceeds. -/

/-- Outcome of the reply dispatch of fsend_file in master mode. -/
inductive TSendReply where
  /-- Bad response: ffileclose and return FALSE. -/
  | commFail
  /-- Log, ffileclose, return TRUE; fsysdep_did_work is not called,
  the work record survives for a later retry. -/
  | retryPreserve
  /-- Log, fsysdep_did_work, ffileclose, return TRUE; the work record
  is discarded. -/
  | discardWork
  /-- SY: proceed with the transfer. -/
  | proceed
deriving DecidableEq

/-- Character i of a NUL-terminated C reply string; reading at or past
the stored length yields the NUL terminator. -/
def creply_char (zrec : List Char) (i : Nat) : Char :=
  zrec.getD i (Char.ofNat 0)

/-- Embedding of the reply dispatch of fsend_file in master mode,
following the branch order of the source: the shape check, then the
cascade on the third character of an SN reply ( 2, then 4, then 6,
then the default), where the 2 case and the default both fall through
to the shared logging and fsysdep_did_work tail. -/
def fsend_file_master_reply (zrec : List Char) : TSendReply :=
  if creply_char zrec 0 ≠ 'S' ∨
      (creply_char zrec 1 ≠ 'Y' ∧ creply_char zrec 1 ≠ 'N') then
    .commFail
  else if creply_char zrec 1 = 'N' then
    if creply_char zrec 2 = '2' then .discardWork
    else if creply_char zrec 2 = '4' then .retryPreserve
    else if creply_char zrec 2 = '6' then .retryPreserve
    else .discardWork
  else
    .proceed

/-- Whether the dispatch outcome has fsend_file report success to its
caller (every outcome except a bad response returns TRUE; the proceed
outcome goes on to the transfer itself). -/
def sendReplyReturnsTrue : TSendReply → Bool
  | .commFail => false
  | _ => true

/-- Claim C8: on a reply starting SN, fsend_file as master returns
TRUE, and it preserves the work record (skipping fsysdep_did_work)
exactly when the third character is 4 or 6; every other SN reply,
including bare SN, discards the work record; the commFail outcome,
the only one returning FALSE, never arises from an SN reply. -/
theorem C8_sn_reply_handling (zrec : List Char)
    (h0 : creply_char zrec 0 = 'S') (h1 : creply_char zrec 1 = 'N') :
    (fsend_file_master_reply zrec = .retryPreserve ↔
      (creply_char zrec 2 = '4' ∨ creply_char zrec 2 = '6')) ∧
    (fsend_file_master_reply zrec = .discardWork ↔
      ¬(creply_char zrec 2 = '4' ∨ creply_char zrec 2 = '6')) ∧
    sendReplyReturnsTrue (fsend_file_master_reply zrec) = true := by
  have hne : ¬(creply_char zrec 0 ≠ 'S' ∨
      (creply_char zrec 1 ≠ 'Y' ∧ creply_char zrec 1 ≠ 'N')) := by
    simp [h0, h1]
  unfold fsend_file_master_reply
  rw [if_neg hne, if_pos h1]
  by_cases h2 : creply_char zrec 2 = '2'
  · rw [if_pos h2, h2]
    refine ⟨by simp [sendReplyReturnsTrue], ?_, rfl⟩
    simp [sendReplyReturnsTrue]
  · rw [if_neg h2]
    by_cases h4 : creply_char zrec 2 = '4'
    · rw [if_pos h4]
      simp [h4, sendReplyReturnsTrue]
    · rw [if_neg h4]
      by_cases h6 : creply_char zrec 2 = '6'
      · rw [if_pos h6]
        simp [h6, sendReplyReturnsTrue]
      · rw [if_neg h6]
        simp [h4, h6, sendReplyReturnsTrue]

/-- Witness for C8 at the reply SN4: the outcome preserves the work
record and the call still reports success. -/
theorem C8_sn_reply_handling_witness :
    fsend_file_master_reply ['S', 'N', '4'] = TSendReply.retryPreserve ∧
    sendReplyReturnsTrue (fsend_file_master_reply ['S', 'N', '4'])
      = true := by
  have h := C8_sn_reply_handling ['S', 'N', '4'] (by decide) (by decide)
  exact ⟨h.1.mpr (by decide), h.2.2⟩

/-! ## SPOS file-position packets (proti.c lines 122-133, 597-636,
1319-1337)

UCKSUM_SET stores a 32-bit value into 4 bytes, most significant
first, each byte being (i >> k) & 0xff, that is i / 2 pow k mod 256;
ICKSUM_GET reassembles them as ((((z0 << 8) | z1) << 8 | z2) << 8)
| z3 with every byte masked by 0xff first, that is base-256 digits
most significant first. -/

/-- Store a 32-bit value as 4 big-endian bytes (the UCKSUM_SET macro;
2 pow 24 = 16777216, 2 pow 16 = 65536, 2 pow 8 = 256). -/
def UCKSUM_SET (i : Nat) : List Nat :=
  [i / 16777216 % 256, i / 65536 % 256, i / 256 % 256, i % 256]

/-- Read 4 big-endian bytes as a 32-bit value (the ICKSUM_GET
macro). -/
def ICKSUM_GET (z : List Nat) : Nat :=
  ((z.getD 0 0 % 256 * 256 + z.getD 1 0 % 256) * 256
      + z.getD 2 0 % 256) * 256
    + z.getD 3 0 % 256

/-- Assembly of the SPOS payload in fiprocess_packet (lines
1325-1332): when the first ring span already holds CCKSUMLEN = 4
bytes the position is read from it directly; otherwise the cfirst
bytes of the first span and the first 4 - cfirst bytes of the second
span are copied into a contiguous buffer. -/
def spos_payload (zfirst zsecond : List Nat) (cfirst : Nat) :
    List Nat :=
  if cfirst ≥ 4 then zfirst
  else zfirst.take cfirst ++ zsecond.take (4 - cfirst)

/-- The SPOS branch of fiprocess_packet: the value stored into
iIrecpos. -/
def fiprocess_spos (zfirst zsecond : List Nat) (cfirst : Nat) : Nat :=
  ICKSUM_GET (spos_payload zfirst zsecond cfirst)

/-- The SPOS emission phase of fisenddata (lines 597-636): when the
requested file position ipos differs from iIsendpos and is not -1,
the buffers are shuffled so that the SPOS packet occupies the current
iIsendseq slot (the pending DATA buffer moves to the following slot),
an SPOS packet carrying UCKSUM_SET (ipos) is transmitted, iIsendseq
advances by INEXTSEQ and iIsendpos becomes ipos.  The result is the
emitted packet (its sequence slot and payload bytes), if any, with
the new values of iIsendseq and iIsendpos. -/
def fisenddata_spos_step (sendseq : Nat) (sendpos ipos : Int) :
    Option (Nat × List Nat) × Nat × Int :=
  if ipos ≠ sendpos ∧ ipos ≠ -1 then
    (some (sendseq, UCKSUM_SET ipos.toNat), INEXTSEQ sendseq, ipos)
  else
    (none, sendseq, sendpos)

/-- Encoding then decoding a 32-bit position is the identity. -/
theorem ICKSUM_GET_UCKSUM_SET (n : Nat) (h : n < 4294967296) :
    ICKSUM_GET (UCKSUM_SET n) = n := by
  simp only [UCKSUM_SET, ICKSUM_GET, List.getD_cons_zero,
    List.getD_cons_succ]
  omega

/-- Splitting a 4-byte list at any point and reassembling it through
spos_payload restores the list. -/
theorem spos_payload_split (a b c d : Nat) (cfirst : Nat) :
    spos_payload (([a, b, c, d]).take cfirst) (([a, b, c, d]).drop cfirst)
      cfirst = [a, b, c, d] := by
  unfold spos_payload
  match cfirst with
  | 0 => rfl
  | 1 => rfl
  | 2 => rfl
  | 3 => rfl
  | n + 4 =>
    rw [if_pos (by omega)]
    simp

/-- Claim C9: round-trip of the file position.  For a position pos
with 0 ≤ pos < 2 pow 32 that differs from the current iIsendpos,
fisenddata first emits an SPOS packet whose 4-byte big-endian payload
encodes pos in the current iIsendseq slot, advances iIsendseq and sets
iIsendpos to pos; and a receiver running the SPOS branch of
fiprocess_packet on that payload, however it is split across the two
ring spans, stores exactly pos into iIrecpos. -/
theorem C9_spos_roundtrip (sendseq : Nat) (sendpos ipos : Int)
    (h0 : 0 ≤ ipos) (h1 : ipos < 4294967296) (h2 : ipos ≠ sendpos) :
    fisenddata_spos_step sendseq sendpos ipos
      = (some (sendseq, UCKSUM_SET ipos.toNat), INEXTSEQ sendseq, ipos) ∧
    ∀ cfirst : Nat,
      (fiprocess_spos ((UCKSUM_SET ipos.toNat).take cfirst)
          ((UCKSUM_SET ipos.toNat).drop cfirst) cfirst : Int) = ipos := by
  constructor
  · unfold fisenddata_spos_step
    rw [if_pos ⟨h2, by omega⟩]
  · intro cfirst
    have hn : ipos.toNat < 4294967296 := by omega
    unfold fiprocess_spos
    rw [show UCKSUM_SET ipos.toNat
        = [ipos.toNat / 16777216 % 256, ipos.toNat / 65536 % 256,
            ipos.toNat / 256 % 256, ipos.toNat % 256] from rfl,
      spos_payload_split,
      show [ipos.toNat / 16777216 % 256, ipos.toNat / 65536 % 256,
            ipos.toNat / 256 % 256, ipos.toNat % 256]
        = UCKSUM_SET ipos.toNat from rfl,
      ICKSUM_GET_UCKSUM_SET ipos.toNat hn]
    omega

/-- Witness for C9: position 305419896 (hex 12345678) sent from
sequence slot 7 while iIsendpos is 0, with the received payload split
after 2 bytes. -/
theorem C9_spos_roundtrip_witness :
    fisenddata_spos_step 7 0 305419896
      = (some (7, UCKSUM_SET ((305419896 : Int)).toNat), INEXTSEQ 7,
          305419896) ∧
    (fiprocess_spos ((UCKSUM_SET ((305419896 : Int)).toNat).take 2)
        ((UCKSUM_SET ((305419896 : Int)).toNat).drop 2) 2 : Int)
      = 305419896 := by
  have h := C9_spos_roundtrip 7 0 305419896 (by decide) (by decide)
    (by decide)
  exact ⟨h.1, h.2 2⟩
